import Mathlib

/-!
Shallow embedding of `app/main.py` from the ShuttlePassengerClient
repository: a FastAPI presentation/proxy layer.  The module-level
configuration, the startup construction of the shared `httpx.AsyncClient`,
the HTML page handlers (`home`, `route_list`, `route_detail`) and the three
proxy endpoints (`meta_proxy`, `stops_proxy`, `vehicles_proxy`) are embedded
as pure Lean functions.  Network effects are made explicit: a handler takes
an oracle describing the upstream's behaviour and returns, alongside its
response, the list of upstream requests it issued.
-/

namespace ShuttlePassengerClient

/-- A JSON value, as decoded by `Response.json()`.  Numbers are restricted
to integers, which covers every literal appearing in the program. -/
inductive Json where
  | null : Json
  | bool (b : Bool) : Json
  | num (n : Int) : Json
  | str (s : String) : Json
  | arr (elems : List Json) : Json
  | obj (fields : List (String × Json)) : Json

/-- Environment-derived configuration read at module load:
`API_BASE_URL`, `API_KEY`, `UPSTREAM_API_BASE` and `UPSTREAM_TIMEOUT`.
`upstreamTimeout` holds the value of `float(os.getenv("UPSTREAM_TIMEOUT", "3.0"))`
(the Python float modelled as a rational), bound to `TIMEOUT` in the source. -/
structure Config where
  apiBaseUrl : String
  apiKey : String
  upstreamApiBase : String
  upstreamTimeout : ℚ
deriving DecidableEq, Repr

/-- The configuration when no environment variable is set:
`API_BASE_URL=http://localhost:9000`, `API_KEY=""`,
`UPSTREAM_API_BASE=http://localhost:9900`, `UPSTREAM_TIMEOUT=3.0`. -/
def defaultConfig : Config :=
  { apiBaseUrl := "http://localhost:9000"
  , apiKey := ""
  , upstreamApiBase := "http://localhost:9900"
  , upstreamTimeout := 3 }

/-- An `httpx.Timeout(total, connect := c)` value, in seconds. -/
structure HttpxTimeout where
  total : ℚ
  connect : ℚ
deriving DecidableEq, Repr

/-- The observable configuration of the `httpx.AsyncClient` built in
`_startup`: base URL, per-call timeout, and optional default headers. -/
structure HttpxClient where
  baseUrl : String
  timeout : HttpxTimeout
  headers : Option (List (String × String))
deriving DecidableEq, Repr

/-- `_startup`: builds the shared client.  The source passes the literal
`httpx.Timeout(10.0, connect=5.0)` and attaches the `Authorization` header
only when `API_KEY` is truthy (a non-empty string). -/
def startupClient (cfg : Config) : HttpxClient :=
  { baseUrl := cfg.apiBaseUrl
  , timeout := { total := 10, connect := 5 }
  , headers :=
      if cfg.apiKey ≠ "" then
        some [("Authorization", "Bearer " ++ cfg.apiKey)]
      else
        none }

/-- One outbound GET issued through the shared client: the request URL and
the query parameters passed via `params=`. -/
structure UpstreamRequest where
  url : String
  params : List (String × String)
deriving DecidableEq, Repr

/-- What the upstream does for a given request, as seen by the handler:
either `client.get` raises an `httpx.RequestError` (network failure, DNS
failure, timeout — all subclasses of `httpx.HTTPError`), or a response
arrives with a status code and a body.  The body is `some j` when
`Response.json()` decodes to `j` and `none` when the body is not valid
JSON (in which case `Response.json()` raises `json.JSONDecodeError`). -/
inductive UpstreamOutcome where
  | transportError (cause : String) : UpstreamOutcome
  | response (status : Nat) (body : Option Json) : UpstreamOutcome

/-- The response a handler produces:
`ok body headers` is a `JSONResponse` (HTTP 200); `httpError s d` is a
raised `HTTPException(status_code := s, detail := d)`; `unhandled msg`
is an exception that escapes the handler, which the framework surfaces
as a 500 internal server error. -/
inductive ProxyResult where
  | ok (body : Json) (headers : List (String × String)) : ProxyResult
  | httpError (status : Nat) (detail : String) : ProxyResult
  | unhandled (msg : String) : ProxyResult

/-- The HTTP status code of a handler result. -/
def statusOf : ProxyResult → Nat
  | .ok _ _ => 200
  | .httpError s _ => s
  | .unhandled _ => 500

/-- The text form of an `httpx.HTTPStatusError` raised by
`raise_for_status`; its message carries the numeric status code. -/
def httpStatusErrorText (status : Nat) : String :=
  "HTTPStatusError for status " ++ toString status

/-- `raise_for_status()` in httpx raises `HTTPStatusError` for every
non-2xx status (client errors at 4xx, server errors at 5xx, and also
informational/redirect statuses). -/
def raisesForStatus (status : Nat) : Bool :=
  decide (status < 200 ∨ 300 ≤ status)

/-- `_ensure_params`: raises `HTTPException(400)` when `orgId` or `routeId`
is falsy.  Both arrive as `str` here, so falsy means the empty string. -/
def ensureParamsFail (orgId routeId : String) : Bool :=
  orgId = "" || routeId = ""

/-- The single GET request a proxy handler issues:
`client.get(url, params={"orgId": orgId, "routeId": routeId})`. -/
def proxyReq (url orgId routeId : String) : UpstreamRequest :=
  { url := url, params := [("orgId", orgId), ("routeId", routeId)] }

/-- How the `try`/`except` block turns one upstream outcome into a
handler result: `client.get` and `raise_for_status` failures are
`httpx.HTTPError`s and become `HTTPException(502, "upstream error: …")`;
`r.json()` raising `json.JSONDecodeError` is NOT an `httpx.HTTPError`, so
it escapes the handler; a decoded body is returned as-is with a
`Cache-Control: no-store` header. -/
def proxyHandle : UpstreamOutcome → ProxyResult
  | .transportError cause =>
      .httpError 502 ("upstream error: " ++ cause)
  | .response status body =>
      if raisesForStatus status then
        .httpError 502 ("upstream error: " ++ httpStatusErrorText status)
      else
        match body with
        | some j => .ok j [("Cache-Control", "no-store")]
        | none => .unhandled "json.decoder.JSONDecodeError"

def proxyCall (upstream : UpstreamRequest → UpstreamOutcome)
    (url : String) (orgId routeId : String) : ProxyResult × List UpstreamRequest :=
  (proxyHandle (upstream (proxyReq url orgId routeId)), [proxyReq url orgId routeId])

/-- `meta_proxy`: validates parameters, then GETs `{UPSTREAM_API_BASE}/meta`. -/
def meta_proxy (cfg : Config) (upstream : UpstreamRequest → UpstreamOutcome)
    (orgId routeId : String) : ProxyResult × List UpstreamRequest :=
  if ensureParamsFail orgId routeId then
    (.httpError 400 "orgId and routeId are required.", [])
  else
    proxyCall upstream (cfg.upstreamApiBase ++ "/meta") orgId routeId

/-- `stops_proxy`: validates parameters, then GETs `{UPSTREAM_API_BASE}/stops`. -/
def stops_proxy (cfg : Config) (upstream : UpstreamRequest → UpstreamOutcome)
    (orgId routeId : String) : ProxyResult × List UpstreamRequest :=
  if ensureParamsFail orgId routeId then
    (.httpError 400 "orgId and routeId are required.", [])
  else
    proxyCall upstream (cfg.upstreamApiBase ++ "/stops") orgId routeId

/-- `vehicles_proxy`: validates parameters, then GETs `{UPSTREAM_API_BASE}/vehicles`. -/
def vehicles_proxy (cfg : Config) (upstream : UpstreamRequest → UpstreamOutcome)
    (orgId routeId : String) : ProxyResult × List UpstreamRequest :=
  if ensureParamsFail orgId routeId then
    (.httpError 400 "orgId and routeId are required.", [])
  else
    proxyCall upstream (cfg.upstreamApiBase ++ "/vehicles") orgId routeId

/-- FastAPI routing of a `/meta` request.  `orgId: str = Query(...)` and
`routeId: str = Query(...)` are required query parameters: when one is
absent FastAPI rejects the request with a 422 validation error before the
handler runs, so no upstream call is made. -/
def handleMetaRequest (cfg : Config) (upstream : UpstreamRequest → UpstreamOutcome)
    (orgId routeId : Option String) : ProxyResult × List UpstreamRequest :=
  match orgId, routeId with
  | some o, some r => meta_proxy cfg upstream o r
  | _, _ => (.httpError 422 "field required", [])

/-- FastAPI routing of a `/stops` request (required-parameter handling as
for `/meta`). -/
def handleStopsRequest (cfg : Config) (upstream : UpstreamRequest → UpstreamOutcome)
    (orgId routeId : Option String) : ProxyResult × List UpstreamRequest :=
  match orgId, routeId with
  | some o, some r => stops_proxy cfg upstream o r
  | _, _ => (.httpError 422 "field required", [])

/-- FastAPI routing of a `/vehicles` request (required-parameter handling
as for `/meta`). -/
def handleVehiclesRequest (cfg : Config) (upstream : UpstreamRequest → UpstreamOutcome)
    (orgId routeId : Option String) : ProxyResult × List UpstreamRequest :=
  match orgId, routeId with
  | some o, some r => vehicles_proxy cfg upstream o r
  | _, _ => (.httpError 422 "field required", [])

/-- One entry of the `routes` list hard-coded in `route_list`. -/
structure RouteItem where
  routeId : Int
  routeNumber : String
  routeTitle : String
  routeType : String
deriving DecidableEq, Repr

/-- The literal `routes` list from `route_list`. -/
def routesData : List RouteItem :=
  [ { routeId := 102, routeNumber := "1", routeTitle := "학내순환(순환)", routeType := "CIRCULATION" }
  , { routeId := 191, routeNumber := "1-1", routeTitle := "학내순환(미디어랩스)", routeType := "ROUND_TRIP_DOWN" }
  , { routeId := 200, routeNumber := "2", routeTitle := "신창역 직행 (신창역행)", routeType := "ROUND_TRIP_UP" }
  , { routeId := 201, routeNumber := "2", routeTitle := "신창역 직행 (후문행)", routeType := "ROUND_TRIP_DOWN" }
  , { routeId := 282, routeNumber := "2-2", routeTitle := "학내순환 > 신창역", routeType := "CIRCULATION" }
  , { routeId := 292, routeNumber := "2-1", routeTitle := "신창역 > 학내순환", routeType := "CIRCULATION" }
  , { routeId := 302, routeNumber := "3", routeTitle := "신창역 휴일", routeType := "CIRCULATION" }
  , { routeId := 900, routeNumber := "900", routeTitle := "아산터미널-천안터미널", routeType := "ROUND_TRIP_DOWN" } ]

/-- The rendered `route_list.html` context: template name, the `routes`
payload and the `jump_base` string. -/
structure RouteListPage where
  template : String
  routes : List RouteItem
  jumpBase : String
deriving DecidableEq, Repr

/-- `route_list` (`GET /route_list?org=`): the upstream fetch is commented
out in the source; the handler renders the hard-coded list and issues no
upstream request. -/
def route_list (org : Int) : RouteListPage × List UpstreamRequest :=
  ( { template := "route_list.html"
    , routes := routesData
    , jumpBase := "/" ++ toString org }
  , [] )

/-- `home` (`GET /`): the `/orgs` fetch is commented out in the source;
the handler renders `home.html` and issues no upstream request. -/
def home : String × List UpstreamRequest :=
  ("home.html", [])

/-- Modelled from the spec (section 4.2, envelope normalization) — the
source contains no such logic, so this definition follows the spec's words
for comparison with the code: if the decoded body is a mapping containing
the resource kind's plural key, substitute that key's value; otherwise use
the body as-is; the result must then be an ordered sequence of objects,
else the outcome is an invalid-payload failure (`none`). -/
def specEnvelopeNormalize (pluralKey : String) (body : Json) : Option (List Json) :=
  let substituted : Json :=
    match body with
    | .obj fields =>
        match fields.lookup pluralKey with
        | some v => v
        | none => body
    | _ => body
  match substituted with
  | .arr elems =>
      if elems.all (fun e => match e with | .obj _ => true | _ => false) then
        some elems
      else
        none
  | _ => none


/-! ## Helper lemmas and oracles -/

/-- A benign upstream oracle: always replies 200 with body `{}`. -/
def constOk : UpstreamRequest → UpstreamOutcome :=
  fun _ => .response 200 (some (.obj []))

/-- Once `_ensure_params` has passed, each proxy handler issues exactly one
upstream request, whatever the upstream does. -/
theorem proxyCall_requests (up : UpstreamRequest → UpstreamOutcome) (url o r : String) :
    (proxyCall up url o r).2 = [proxyReq url o r] :=
  rfl

/-- A successful outcome translation always carries exactly the
`Cache-Control: no-store` header. -/
theorem proxyHandle_ok_headers (out : UpstreamOutcome) (j : Json)
    (hs : List (String × String))
    (h : proxyHandle out = .ok j hs) : hs = [("Cache-Control", "no-store")] := by
  rcases out with c | ⟨s, b⟩
  · simp [proxyHandle] at h
  · rcases hb : raisesForStatus s with _ | _ <;>
      simp only [proxyHandle, hb, Bool.false_eq_true, if_false, if_true] at h
    · rcases b with _ | j' <;> simp_all
    · simp at h

/-! ## Claims -/

/-- C1 (counterexample): with the default configuration, a meta request for
`orgId="1"` is dispatched to `UPSTREAM_API_BASE` with path `/meta`, not to
`/user/meta`, and no second upstream base exists in the code. -/
theorem C1_counterexample :
    (meta_proxy defaultConfig constOk "1" "7").2 =
      [{ url := "http://localhost:9900/meta", params := [("orgId", "1"), ("routeId", "7")] }] ∧
    "http://localhost:9900/meta" ≠ "http://localhost:9900/user/meta" :=
  ⟨rfl, by decide⟩

/-- C1 (amended): for every configuration and every valid `(orgId, routeId)`
pair, the meta, stops and vehicles proxies each issue exactly one upstream
request, to the single configured `UPSTREAM_API_BASE` with the fixed paths
`/meta`, `/stops` and `/vehicles` — the base and path never depend on the
organization identifier. -/
theorem C1_amended_single_base (cfg : Config) (up : UpstreamRequest → UpstreamOutcome)
    (o r : String) (ho : o ≠ "") (hr : r ≠ "") :
    (meta_proxy cfg up o r).2 = [proxyReq (cfg.upstreamApiBase ++ "/meta") o r] ∧
    (stops_proxy cfg up o r).2 = [proxyReq (cfg.upstreamApiBase ++ "/stops") o r] ∧
    (vehicles_proxy cfg up o r).2 = [proxyReq (cfg.upstreamApiBase ++ "/vehicles") o r] := by
  have hp : ensureParamsFail o r = false := by simp [ensureParamsFail, ho, hr]
  refine ⟨?_, ?_, ?_⟩ <;>
    simp [meta_proxy, stops_proxy, vehicles_proxy, hp, proxyCall_requests]

/-- Witness for C1 (amended) at `orgId="1"`, `routeId="7"`. -/
theorem C1_amended_single_base_witness :
    ("1" : String) ≠ "" ∧ ("7" : String) ≠ "" ∧
    ((meta_proxy defaultConfig constOk "1" "7").2 =
        [proxyReq (defaultConfig.upstreamApiBase ++ "/meta") "1" "7"] ∧
      (stops_proxy defaultConfig constOk "1" "7").2 =
        [proxyReq (defaultConfig.upstreamApiBase ++ "/stops") "1" "7"] ∧
      (vehicles_proxy defaultConfig constOk "1" "7").2 =
        [proxyReq (defaultConfig.upstreamApiBase ++ "/vehicles") "1" "7"]) :=
  ⟨by decide, by decide,
    C1_amended_single_base defaultConfig constOk "1" "7" (by decide) (by decide)⟩

/-- C2 (counterexample): a `/meta` request with `orgId` absent is rejected by
the required-query-parameter validation with status 422, not 400 (still with
zero upstream calls). -/
theorem C2_counterexample :
    statusOf (handleMetaRequest defaultConfig constOk none (some "7")).1 = 422 ∧
    (handleMetaRequest defaultConfig constOk none (some "7")).2 = [] ∧
    (422 : Nat) ≠ 400 :=
  ⟨rfl, rfl, by decide⟩

/-- C2 (amended): for the meta, stops and vehicles operations, an empty
`orgId` or `routeId` yields a 400 with zero upstream calls, while an absent
required parameter yields a 422 validation error, also with zero upstream
calls. -/
theorem C2_amended_validation (cfg : Config) (up : UpstreamRequest → UpstreamOutcome) :
    (∀ o r : String, o = "" ∨ r = "" →
      (statusOf (meta_proxy cfg up o r).1 = 400 ∧ (meta_proxy cfg up o r).2 = []) ∧
      (statusOf (stops_proxy cfg up o r).1 = 400 ∧ (stops_proxy cfg up o r).2 = []) ∧
      (statusOf (vehicles_proxy cfg up o r).1 = 400 ∧ (vehicles_proxy cfg up o r).2 = [])) ∧
    (∀ oq rq : Option String, oq = none ∨ rq = none →
      (statusOf (handleMetaRequest cfg up oq rq).1 = 422 ∧
        (handleMetaRequest cfg up oq rq).2 = []) ∧
      (statusOf (handleStopsRequest cfg up oq rq).1 = 422 ∧
        (handleStopsRequest cfg up oq rq).2 = []) ∧
      (statusOf (handleVehiclesRequest cfg up oq rq).1 = 422 ∧
        (handleVehiclesRequest cfg up oq rq).2 = [])) := by
  constructor
  · intro o r h
    have hp : ensureParamsFail o r = true := by
      rcases h with h | h <;> simp [ensureParamsFail, h]
    refine ⟨⟨?_, ?_⟩, ⟨?_, ?_⟩, ?_, ?_⟩ <;>
      simp [meta_proxy, stops_proxy, vehicles_proxy, hp, statusOf]
  · intro oq rq h
    rcases oq with _ | o
    · exact ⟨⟨rfl, rfl⟩, ⟨rfl, rfl⟩, rfl, rfl⟩
    · rcases rq with _ | r
      · exact ⟨⟨rfl, rfl⟩, ⟨rfl, rfl⟩, rfl, rfl⟩
      · rcases h with h | h <;> simp at h

/-- Witness for C2 (amended): empty `orgId` gives 400, absent `orgId`
gives 422. -/
theorem C2_amended_validation_witness :
    (("" : String) = "" ∨ ("7" : String) = "") ∧
    statusOf (meta_proxy defaultConfig constOk "" "7").1 = 400 ∧
    ((none : Option String) = none ∨ (some "7" : Option String) = none) ∧
    statusOf (handleMetaRequest defaultConfig constOk none (some "7")).1 = 422 :=
  ⟨Or.inl rfl,
    (((C2_amended_validation defaultConfig constOk).1 "" "7" (Or.inl rfl)).1).1,
    Or.inl rfl,
    (((C2_amended_validation defaultConfig constOk).2 none (some "7") (Or.inl rfl)).1).1⟩

/-- C3 (counterexample): the routes page handler performs no upstream call at
all, and its payload is the fixed eight-route list — not the
envelope-normalized form of the claim's example upstream body, which would be
the one-element array containing the object with `routeId` 1. -/
theorem C3_counterexample :
    (route_list 1).2 = [] ∧
    specEnvelopeNormalize "routes"
        (.obj [("routes", .arr [.obj [("routeId", .num 1)]])]) =
      some [.obj [("routeId", .num 1)]] ∧
    (route_list 1).1.routes.length ≠ 1 :=
  ⟨rfl, rfl, by decide⟩

/-- C3 (amended): no envelope normalization occurs because the orgs and
routes pages never contact the upstream: `home` and `route_list` issue zero
upstream requests, and `route_list` always renders the fixed hard-coded
route list. -/
theorem C3_amended_no_upstream (org : Int) :
    home.2 = [] ∧ (route_list org).2 = [] ∧ (route_list org).1.routes = routesData :=
  ⟨rfl, rfl, rfl⟩

/-- C4 (counterexample): an upstream 200 whose body is not valid JSON makes
`r.json()` raise `json.JSONDecodeError`, which is not an `httpx.HTTPError`:
it escapes the handler and surfaces as a 500, not the claimed 502. -/
theorem C4_counterexample :
    (meta_proxy defaultConfig (fun _ => .response 200 none) "1" "7").1 =
      .unhandled "json.decoder.JSONDecodeError" ∧
    statusOf (meta_proxy defaultConfig (fun _ => .response 200 none) "1" "7").1 = 500 ∧
    (500 : Nat) ≠ 502 :=
  ⟨rfl, rfl, by decide⟩

/-- C4 (amended): a non-JSON upstream body escapes the
`except httpx.HTTPError` clause of each proxy and surfaces as an unhandled
500, and a decoded body is passed through unchanged without any shape
validation (every JSON value, whatever its shape, is returned as-is). -/
theorem C4_amended_payload (cfg : Config) (o r : String) (j : Json)
    (ho : o ≠ "") (hr : r ≠ "") :
    (statusOf (meta_proxy cfg (fun _ => .response 200 none) o r).1 = 500 ∧
      statusOf (stops_proxy cfg (fun _ => .response 200 none) o r).1 = 500 ∧
      statusOf (vehicles_proxy cfg (fun _ => .response 200 none) o r).1 = 500) ∧
    (meta_proxy cfg (fun _ => .response 200 (some j)) o r).1 =
      .ok j [("Cache-Control", "no-store")] ∧
    (stops_proxy cfg (fun _ => .response 200 (some j)) o r).1 =
      .ok j [("Cache-Control", "no-store")] ∧
    (vehicles_proxy cfg (fun _ => .response 200 (some j)) o r).1 =
      .ok j [("Cache-Control", "no-store")] := by
  have hp : ensureParamsFail o r = false := by simp [ensureParamsFail, ho, hr]
  refine ⟨⟨?_, ?_, ?_⟩, ?_, ?_, ?_⟩ <;>
    simp [meta_proxy, stops_proxy, vehicles_proxy, hp, proxyCall, proxyHandle,
      raisesForStatus, statusOf]

/-- Witness for C4 (amended) at `orgId="1"`, `routeId="7"`, body `{}`. -/
theorem C4_amended_payload_witness :
    ("1" : String) ≠ "" ∧ ("7" : String) ≠ "" ∧
    statusOf (meta_proxy defaultConfig (fun _ => .response 200 none) "1" "7").1 = 500 :=
  ⟨by decide, by decide,
    ((C4_amended_payload defaultConfig "1" "7" (.obj []) (by decide) (by decide)).1).1⟩

/-- C5: when the upstream responds with a status of 400 or greater, each of
the three proxies surfaces a 502 (the code never passes a 404 through; the
claim marks that pass-through as optional). -/
theorem C5_status_error_502 (cfg : Config) (o r : String) (s : Nat) (b : Option Json)
    (ho : o ≠ "") (hr : r ≠ "") (hs : 400 ≤ s) :
    statusOf (meta_proxy cfg (fun _ => .response s b) o r).1 = 502 ∧
    statusOf (stops_proxy cfg (fun _ => .response s b) o r).1 = 502 ∧
    statusOf (vehicles_proxy cfg (fun _ => .response s b) o r).1 = 502 := by
  have hp : ensureParamsFail o r = false := by simp [ensureParamsFail, ho, hr]
  have hraise : raisesForStatus s = true := by
    simp only [raisesForStatus, decide_eq_true_eq]
    omega
  refine ⟨?_, ?_, ?_⟩ <;>
    simp [meta_proxy, stops_proxy, vehicles_proxy, hp, proxyCall, proxyHandle,
      hraise, statusOf]

/-- Witness for C5 at an upstream 404. -/
theorem C5_status_error_502_witness :
    ("1" : String) ≠ "" ∧ ("7" : String) ≠ "" ∧ 400 ≤ 404 ∧
    (statusOf (meta_proxy defaultConfig (fun _ => .response 404 none) "1" "7").1 = 502 ∧
      statusOf (stops_proxy defaultConfig (fun _ => .response 404 none) "1" "7").1 = 502 ∧
      statusOf (vehicles_proxy defaultConfig (fun _ => .response 404 none) "1" "7").1 = 502) :=
  ⟨by decide, by decide, by decide,
    C5_status_error_502 defaultConfig "1" "7" 404 none (by decide) (by decide) (by decide)⟩

/-- C6: a network-level failure of the outbound call becomes a 502 whose
detail string carries the underlying transport cause; it is never swallowed
into a success. -/
theorem C6_transport_error_502 (cfg : Config) (o r cause : String)
    (ho : o ≠ "") (hr : r ≠ "") :
    (meta_proxy cfg (fun _ => .transportError cause) o r).1 =
      .httpError 502 ("upstream error: " ++ cause) ∧
    (stops_proxy cfg (fun _ => .transportError cause) o r).1 =
      .httpError 502 ("upstream error: " ++ cause) ∧
    (vehicles_proxy cfg (fun _ => .transportError cause) o r).1 =
      .httpError 502 ("upstream error: " ++ cause) := by
  have hp : ensureParamsFail o r = false := by simp [ensureParamsFail, ho, hr]
  refine ⟨?_, ?_, ?_⟩ <;>
    simp [meta_proxy, stops_proxy, vehicles_proxy, hp, proxyCall, proxyHandle]

/-- Witness for C6 at a connection-refused cause. -/
theorem C6_transport_error_502_witness :
    ("1" : String) ≠ "" ∧ ("7" : String) ≠ "" ∧
    (meta_proxy defaultConfig (fun _ => .transportError "ConnectError") "1" "7").1 =
      .httpError 502 ("upstream error: " ++ "ConnectError") :=
  ⟨by decide, by decide,
    (C6_transport_error_502 defaultConfig "1" "7" "ConnectError"
      (by decide) (by decide)).1⟩

/-- C7: every successful response of the meta, stops or vehicles proxy
carries the `Cache-Control: no-store` header. -/
theorem C7_success_no_store (cfg : Config) (up : UpstreamRequest → UpstreamOutcome)
    (o r : String) (j : Json) (hs : List (String × String))
    (h : (meta_proxy cfg up o r).1 = .ok j hs ∨
      (stops_proxy cfg up o r).1 = .ok j hs ∨
      (vehicles_proxy cfg up o r).1 = .ok j hs) :
    ("Cache-Control", "no-store") ∈ hs := by
  have key : ∀ url : String, (proxyCall up url o r).1 = .ok j hs →
      ("Cache-Control", "no-store") ∈ hs := by
    intro url hcall
    have := proxyHandle_ok_headers (up (proxyReq url o r)) j hs hcall
    simp [this]
  rcases h with h | h | h
  · unfold meta_proxy at h
    split at h
    · simp at h
    · exact key _ h
  · unfold stops_proxy at h
    split at h
    · simp at h
    · exact key _ h
  · unfold vehicles_proxy at h
    split at h
    · simp at h
    · exact key _ h

/-- Witness for C7: a concrete successful meta response. -/
theorem C7_success_no_store_witness :
    (meta_proxy defaultConfig constOk "1" "7").1 =
      .ok (.obj []) [("Cache-Control", "no-store")] ∧
    ("Cache-Control", "no-store") ∈ [("Cache-Control", "no-store")] :=
  ⟨rfl, C7_success_no_store defaultConfig constOk "1" "7" (.obj [])
    [("Cache-Control", "no-store")] (Or.inl rfl)⟩

/-- C8 (counterexample): with the default configuration the parsed
`UPSTREAM_TIMEOUT` is 3.0 seconds, yet the client built at startup enforces
the hard-coded `httpx.Timeout(10.0, connect=5.0)`. -/
theorem C8_counterexample :
    defaultConfig.upstreamTimeout = 3 ∧
    (startupClient defaultConfig).timeout = { total := 10, connect := 5 } ∧
    (10 : ℚ) ≠ 3 :=
  ⟨rfl, rfl, by norm_num⟩

/-- C8 (amended): the per-call timeout enforced by the startup client is the
fixed 10.0-second total / 5.0-second connect pair for every configuration —
the parsed `UPSTREAM_TIMEOUT` value is never applied, and changing it does
not change the enforced timeout — while a timed-out call (an
`httpx.TimeoutException`, a `RequestError`) surfaces as a 502 transport
error rather than a success or a hang. -/
theorem C8_amended_timeout (cfg : Config) (q : ℚ) (o r : String)
    (ho : o ≠ "") (hr : r ≠ "") :
    (startupClient cfg).timeout = { total := 10, connect := 5 } ∧
    (startupClient { cfg with upstreamTimeout := q }).timeout = (startupClient cfg).timeout ∧
    (meta_proxy cfg (fun _ => .transportError "ReadTimeout") o r).1 =
      .httpError 502 ("upstream error: " ++ "ReadTimeout") := by
  have hp : ensureParamsFail o r = false := by simp [ensureParamsFail, ho, hr]
  refine ⟨rfl, rfl, ?_⟩
  simp [meta_proxy, hp, proxyCall, proxyHandle]

/-- Witness for C8 (amended) at the default configuration. -/
theorem C8_amended_timeout_witness :
    ("1" : String) ≠ "" ∧ ("7" : String) ≠ "" ∧
    (startupClient defaultConfig).timeout = { total := 10, connect := 5 } :=
  ⟨by decide, by decide,
    (C8_amended_timeout defaultConfig 3 "1" "7" (by decide) (by decide)).1⟩

/-- C9: the startup client is configured with an
`Authorization: Bearer <token>` default header exactly when a non-empty
`API_KEY` was configured; with an empty key no header mapping is set at
all, so no Authorization header is sent. -/
theorem C9_bearer_header_iff (cfg : Config) :
    ((startupClient cfg).headers = some [("Authorization", "Bearer " ++ cfg.apiKey)] ↔
      cfg.apiKey ≠ "") ∧
    ((startupClient cfg).headers = none ↔ cfg.apiKey = "") := by
  by_cases h : cfg.apiKey = "" <;> simp [startupClient, h]

/-- C10: `route_list` issues no upstream request, and returns the same fixed
list of eight hard-coded routes whatever the `org` value is. -/
theorem C10_route_list_fixed (org orgOther : Int) :
    (route_list org).2 = [] ∧
    (route_list org).1.routes = routesData ∧
    routesData.length = 8 ∧
    (route_list org).1.routes = (route_list orgOther).1.routes :=
  ⟨rfl, rfl, rfl, rfl⟩

end ShuttlePassengerClient
